import Mathlib

/-!
Shallow embedding of `holmesgpt_playbooks/holmes_integration.py`.

The file models the two Robusta playbook actions `analyze_with_holmesgpt`
and `analyze_image_pull_backoff_with_holmes` as pure functions from an
explicit event model (the results of the host accessors `get_pod`,
`get_pod_logs`, `list_pod_events`, the outcome of the HTTP POST, and the
cluster name) to a run result: either no finding (pod missing), a crash
(an uncaught Python exception escaping the action), or a finished
`Finding` value (title, aggregation key, markdown blocks, table and file
enrichments).
-/

namespace HolmesGPT

/-- JSON values as produced by `response.json()` and by the dict/list
literals the playbook builds.  Numbers are modelled as integers: the
playbook never constructs or inspects fractional numbers. -/
inductive JVal where
  | null
  | bool (b : Bool)
  | num (n : Int)
  | str (s : String)
  | arr (xs : List JVal)
  | obj (ps : List (String × JVal))

/-- Python truthiness of a JSON-decoded value (`if x:` / `x or y`). -/
def pyTruthy : JVal → Bool
  | .null => false
  | .bool b => b
  | .num n => n != 0
  | .str s => s != ""
  | .arr xs => !xs.isEmpty
  | .obj ps => !ps.isEmpty

/-- Python `dict.get(k)` with default `None`, over an association list. -/
def pyGet (ps : List (String × JVal)) (k : String) : JVal :=
  match ps.find? (fun p => p.1 == k) with
  | some p => p.2
  | none => .null

/-- A single-quote character, used by Python `repr` of strings. -/
def sq : String := String.mk [Char.ofNat 39]

/-- Python `repr` of a JSON-decoded value (quoting of strings is modelled
for quote-free contents, which is all the development evaluates). -/
def pyRepr (j : JVal) : String :=
  match j with
  | .null => "None"
  | .bool b => if b then "True" else "False"
  | .num n => toString n
  | .str s => sq ++ s ++ sq
  | .arr xs => "[" ++ String.intercalate ", " (xs.attach.map fun x => pyRepr x.1) ++ "]"
  | .obj ps =>
      "\x7b" ++
        String.intercalate ", "
          (ps.attach.map fun p => sq ++ p.1.1 ++ sq ++ ": " ++ pyRepr p.1.2) ++
      "\x7d"
termination_by sizeOf j
decreasing_by
  all_goals simp_wf
  · have := List.sizeOf_lt_of_mem x.2
    omega
  · obtain ⟨⟨k, v⟩, hm⟩ := p
    have := List.sizeOf_lt_of_mem hm
    simp_all
    omega

/-- Python `str` of a JSON-decoded value: identity on strings, `repr`
otherwise. -/
def pyStr : JVal → String
  | .str s => s
  | j => pyRepr j

/-- Lines 152-155 / 278-281: pick the value of the `answer` key if truthy,
else the value of the `analysis` key if truthy, else `str` of the whole
body; a non-dict body is stringified directly. -/
def chooseAnalysis (j : JVal) : JVal :=
  match j with
  | .obj ps =>
      let a := pyGet ps "answer"
      if pyTruthy a then a
      else
        let b := pyGet ps "analysis"
        if pyTruthy b then b else .str (pyStr (.obj ps))
  | _ => .str (pyStr j)

/-- The analysis text as it ends up interpolated into the markdown f-string:
`str` of the chosen value. -/
def extractAnalysisText (j : JVal) : String :=
  pyStr (chooseAnalysis j)

/-- JSON string escaping as done by `json.dumps` for the characters this
development exercises (Python additionally escapes other control and
non-ASCII characters, which no modelled value contains). -/
def escChar (c : Char) : List Char :=
  if c = '"' then ['\\', '"']
  else if c = '\\' then ['\\', '\\']
  else if c = '\n' then ['\\', 'n']
  else if c = '\t' then ['\\', 't']
  else if c = '\r' then ['\\', 'r']
  else [c]

def jsonEscape (s : String) : String :=
  String.mk (s.data.foldr (fun c acc => escChar c ++ acc) [])

def spacesN (n : Nat) : String := String.mk (List.replicate n ' ')

/-- `json.dumps(v, indent=2)` at current indentation `ind` (the playbook
always calls it at top level, `ind = 0`). -/
def dumps (ind : Nat) (j : JVal) : String :=
  match j with
  | .null => "null"
  | .bool b => if b then "true" else "false"
  | .num n => toString n
  | .str s => "\"" ++ jsonEscape s ++ "\""
  | .arr [] => "[]"
  | .arr xs =>
      "[\n" ++
        String.intercalate ",\n"
          (xs.attach.map fun x => spacesN (ind + 2) ++ dumps (ind + 2) x.1) ++
      "\n" ++ spacesN ind ++ "]"
  | .obj [] => "\x7b\x7d"
  | .obj ps =>
      "\x7b\n" ++
        String.intercalate ",\n"
          (ps.attach.map fun p =>
            spacesN (ind + 2) ++ "\"" ++ jsonEscape p.1.1 ++ "\": " ++
              dumps (ind + 2) p.1.2) ++
      "\n" ++ spacesN ind ++ "\x7d"
termination_by sizeOf j
decreasing_by
  all_goals simp_wf
  · have := List.sizeOf_lt_of_mem x.2
    omega
  · obtain ⟨⟨k, v⟩, hm⟩ := p
    have := List.sizeOf_lt_of_mem hm
    simp_all
    omega

/-- Python slice `s[:n]`. -/
def pyTake (n : Nat) (s : String) : String := String.mk (s.data.take n)

/-- Line 122: `pod_logs[-2000:] if len(pod_logs) > 2000 else pod_logs`. -/
def logTail (s : String) : String :=
  if s.length > 2000 then String.mk (s.data.drop (s.length - 2000)) else s

/-- Character-list prefix test. -/
def chPre : List Char → List Char → Bool
  | [], _ => true
  | _ :: _, [] => false
  | a :: as, b :: bs => a == b && chPre as bs

/-- Character-list substring test. -/
def chSub (n : List Char) : List Char → Bool
  | [] => chPre n []
  | c :: t => chPre n (c :: t) || chSub n t

/-- Python substring containment `needle in hay`. -/
def strIn (needle hay : String) : Bool := chSub needle.data hay.data

/-- `ContainerStateWaiting`: optional reason and message. -/
structure WaitingState where
  reason : Option String
  message : Option String
deriving DecidableEq

/-- `ContainerStateTerminated`: the fields the playbook reads. -/
structure TerminatedState where
  reason : Option String
  exitCode : Int
  message : Option String
deriving DecidableEq

/-- `ContainerState`: at most one of waiting/terminated/running present;
`running` is modelled as presence of the running sub-object. -/
structure ContState where
  waiting : Option WaitingState
  terminated : Option TerminatedState
  running : Bool
deriving DecidableEq

/-- `ContainerStatus` fields the playbook reads. -/
structure ContainerStatusModel where
  name : String
  image : String
  ready : Bool
  restartCount : Int
  state : Option ContState
deriving DecidableEq

/-- Pod condition fields read at lines 64-72. -/
structure CondModel where
  ctype : String
  status : String
  reason : Option String
  message : Option String
deriving DecidableEq

structure PodMeta where
  name : String
  namespc : String
deriving DecidableEq

structure PodStatusModel where
  phase : String
  conditions : Option (List CondModel)
  containerStatuses : Option (List ContainerStatusModel)
deriving DecidableEq

structure PodModel where
  metadata : PodMeta
  status : PodStatusModel
deriving DecidableEq

/-- A Kubernetes event as read by the playbook (`e.type`, `e.reason`,
`e.message`). -/
structure EventModel where
  etype : String
  reason : String
  message : String
deriving DecidableEq

/-- Outcome of the `requests.post` / `raise_for_status` / `response.json()`
sequence: a decoded body, a `requests.exceptions.RequestException` (line
159), or any other exception (line 162). -/
inductive HttpOutcome where
  | success (body : JVal)
  | requestError (msg : String)
  | otherError (msg : String)

/-- The explicit inputs of one playbook invocation: the results of the
host accessors and of the HTTP call. -/
structure PodEventModel where
  pod : Option PodModel
  logsResult : Except String String
  eventsResult : Except String (List EventModel)
  httpResult : HttpOutcome
  clusterName : Option String

/-- The finding as assembled by either action: title, aggregation key, the
two markdown blocks, and the optional table/file enrichments. -/
structure FindingModel where
  title : String
  aggKey : String
  md1 : String
  md2 : String
  table : Option (List (List String))
  file : Option (String × String)
deriving DecidableEq

/-- Result of one invocation: the pod was missing (silent return, line 33
/ 223), an uncaught exception escaped the action, or a finding was handed
to `event.add_finding`. -/
inductive RunResult where
  | noPod
  | crashed (err : String)
  | finished (f : FindingModel)
deriving DecidableEq

/-- Lines 44-48: logs, degraded to a placeholder when the accessor raises. -/
def podLogsOf : Except String String → String
  | .ok l => l
  | .error _ => "No hay logs disponibles"

/-- Line 54: one line of `events_text`. -/
def eventLine (e : EventModel) : String :=
  "[" ++ e.etype ++ "] " ++ e.reason ++ ": " ++ e.message

/-- Lines 51-59: `events_text`, degraded to a placeholder when
`list_pod_events` raises. -/
def eventsTextOf : Except String (List EventModel) → String
  | .ok evs => String.intercalate "\n" (evs.map eventLine)
  | .error _ => "No hay eventos disponibles"

/-- The tagged container state recorded at lines 87-104: waiting preferred
over terminated preferred over running; messages default to `""`. -/
inductive StateVariant where
  | waiting (reason : Option String) (message : String)
  | terminated (reason : Option String) (exitCode : Int) (message : String)
  | running
deriving DecidableEq

/-- Lines 87-104 as a function of one container status. -/
def stateInfoOf (cs : ContainerStatusModel) : Option StateVariant :=
  match cs.state with
  | none => none
  | some st =>
    match st.waiting with
    | some w => some (.waiting w.reason (w.message.getD ""))
    | none =>
      match st.terminated with
      | some t => some (.terminated t.reason t.exitCode (t.message.getD ""))
      | none => if st.running then some .running else none

def optStrJ : Option String → JVal
  | some s => .str s
  | none => .null

/-- The `"state"` entry of `status_info`, when one is recorded. -/
def stateEntry (cs : ContainerStatusModel) : List (String × JVal) :=
  match stateInfoOf cs with
  | none => []
  | some (.waiting r m) =>
      [("state", .obj [("waiting", .obj [("reason", optStrJ r), ("message", .str m)])])]
  | some (.terminated r c m) =>
      [("state", .obj [("terminated",
        .obj [("reason", optStrJ r), ("exitCode", .num c), ("message", .str m)])])]
  | some .running => [("state", .obj [("running", .bool true)])]

/-- Lines 79-106: the `status_info` dict for one container. -/
def statusInfoJ (cs : ContainerStatusModel) : JVal :=
  .obj ([("name", .str cs.name), ("ready", .bool cs.ready),
         ("restartCount", .num cs.restartCount), ("image", .str cs.image)] ++
        stateEntry cs)

/-- Lines 64-72: one pod condition dict (reason/message falsy-defaulted). -/
def condJ (c : CondModel) : JVal :=
  .obj [("type", .str c.ctype), ("status", .str c.status),
        ("reason", .str (c.reason.getD "")), ("message", .str (c.message.getD ""))]

/-- Lines 62-106: the `pod_status` dict. -/
def buildPodStatus (pod : PodModel) : JVal :=
  .obj [("phase", .str pod.status.phase),
        ("conditions", .arr ((pod.status.conditions.getD []).map condJ)),
        ("containerStatuses",
          .arr ((pod.status.containerStatuses.getD []).map statusInfoJ))]

/-- Lines 109-123: the context f-string POSTed to the diagnostic service. -/
def contextOf (ns podName phase podStatusDump eventsText podLogs : String) : String :=
  "\nPod con problemas detectado en el cluster:\n- Namespace: " ++ ns ++
  "\n- Pod: " ++ podName ++
  "\n- Fase: " ++ phase ++
  "\n\nEstado del Pod:\n" ++ podStatusDump ++
  "\n\nEventos del Pod:\n" ++ eventsText ++
  "\n\nLogs del Pod (últimas líneas):\n" ++ logTail podLogs ++ "\n"

/-- Lines 128-164: the analysis text, per HTTP outcome; on a
`RequestException` the first 1000 characters of the context plus `"..."`
are appended. -/
def analysisTextOf (http : HttpOutcome) (context : String) : String :=
  match http with
  | .success j => extractAnalysisText j
  | .requestError e =>
      "❌ Error al comunicarse con HolmesGPT: " ++ e ++
      "\n\nContexto recolectado:\n" ++ pyTake 1000 context ++ "..."
  | .otherError e => "❌ Error inesperado: " ++ e

/-- Line 180: `event.get_context().cluster_name or 'N/A'`. -/
def orNA : Option String → String
  | none => "N/A"
  | some "" => "N/A"
  | some s => s

/-- Lines 176-182: the first markdown block. -/
def summaryMdOf (ns podName phase : String) (cluster : Option String) : String :=
  "**Pod problemático:** `" ++ ns ++ "/" ++ podName ++ "`\n**Fase:** " ++
  phase ++ "\n**Cluster:** " ++ orNA cluster

/-- Header of the analysis markdown block (lines 185-189). -/
def analysisHeader : String := "## 🤖 Análisis de HolmesGPT\n\n"

/-- Lines 193-196: the recent-events table rows. -/
def eventsTableRows (evs : List EventModel) : List (List String) :=
  (evs.take 5).map fun e => [e.etype, e.reason, pyTake 100 e.message]

/-- Line 169: the aggregation key of `analyze_with_holmesgpt`. -/
def mkAggKey (ns podName : String) : String :=
  "HolmesGPT_" ++ ns ++ "_" ++ podName

/-- The whole `analyze_with_holmesgpt` action.  Note that when
`list_pod_events` raised, the name `pod_events` was never bound, so the
read at line 192 raises `UnboundLocalError` after the finding was built
but before `event.add_finding` runs. -/
def runAnalyze (ev : PodEventModel) : RunResult :=
  match ev.pod with
  | none => .noPod
  | some pod =>
    let podName := pod.metadata.name
    let ns := pod.metadata.namespc
    let podLogs := podLogsOf ev.logsResult
    let eventsText := eventsTextOf ev.eventsResult
    let context := contextOf ns podName pod.status.phase
      (dumps 0 (buildPodStatus pod)) eventsText podLogs
    let analysisText := analysisTextOf ev.httpResult context
    match ev.eventsResult with
    | .error _ => .crashed "UnboundLocalError: local variable pod_events referenced before assignment"
    | .ok podEvents =>
      .finished
        { title := "🔍 Análisis HolmesGPT: " ++ ns ++ "/" ++ podName
          aggKey := mkAggKey ns podName
          md1 := summaryMdOf ns podName pod.status.phase ev.clusterName
          md2 := analysisHeader ++ analysisText
          table := if podEvents.isEmpty then none else some (eventsTableRows podEvents)
          file := if podLogs.length > 100 then some (podName ++ "_logs.txt", podLogs)
                  else none }

/-- Lines 233: the reason match for ImagePull problems. -/
def matchesImagePull (r : String) : Bool :=
  strIn "ImagePullBackOff" r || strIn "ErrImagePull" r

/-- One entry of the `container_statuses` list built at lines 234-239. -/
structure AffectedContainer where
  name : String
  image : String
  reason : String
  message : String
deriving DecidableEq

/-- Lines 229-239: the collection loop.  Evaluating
`"ImagePullBackOff" in cs.state.waiting.reason` with a `None` reason
raises `TypeError`, which nothing catches. -/
def collectAffected : List ContainerStatusModel → Except String (List AffectedContainer)
  | [] => .ok []
  | cs :: rest =>
    match cs.state with
    | none => collectAffected rest
    | some st =>
      match st.waiting with
      | none => collectAffected rest
      | some w =>
        match w.reason with
        | none => .error "TypeError: argument of type NoneType is not iterable"
        | some r =>
          if matchesImagePull r then
            (collectAffected rest).map
              (fun l => { name := cs.name, image := cs.image,
                          reason := r, message := w.message.getD "" } :: l)
          else collectAffected rest

/-- Lines 234-239 / 247: the affected-container list as dumped into the
ImagePull context. -/
def affectedJson (l : List AffectedContainer) : JVal :=
  .arr (l.map fun a =>
    .obj [("name", .str a.name), ("image", .str a.image),
          ("reason", .str a.reason), ("message", .str a.message)])

/-- Lines 242-255: the ImagePull context f-string. -/
def ipContextOf (ns podName dump : String) : String :=
  "\nProblema de ImagePullBackOff detectado:\n- Namespace: " ++ ns ++
  "\n- Pod: " ++ podName ++
  "\n- Contenedores afectados:\n" ++ dump ++
  "\n\nPor favor analiza por qué la imagen no se puede descargar y proporciona soluciones posibles.\nConsidera:\n1. Si la imagen existe en el registro\n2. Si las credenciales son correctas\n3. Si el nombre de la imagen está bien escrito\n4. Si hay problemas de red o permisos\n"

/-- Lines 259-285: the ImagePull analysis text; a single
`except Exception` catches every failure and appends the full context. -/
def ipAnalysisTextOf (http : HttpOutcome) (context : String) : String :=
  match http with
  | .success j => extractAnalysisText j
  | .requestError e =>
      "❌ Error al comunicarse con HolmesGPT: " ++ e ++ "\n\nContexto:\n" ++ context
  | .otherError e =>
      "❌ Error al comunicarse con HolmesGPT: " ++ e ++ "\n\nContexto:\n" ++ context

/-- Line 290: the aggregation key of `analyze_image_pull_backoff_with_holmes`. -/
def mkIpAggKey (ns podName : String) : String :=
  "HolmesGPT_ImagePull_" ++ ns ++ "_" ++ podName

/-- Lines 297-304: the first ImagePull markdown block. -/
def ipSummaryMdOf (ns podName : String) (affected : List AffectedContainer) : String :=
  "**🚨 Problema:** ImagePullBackOff\n**📦 Pod:** `" ++ ns ++ "/" ++ podName ++
  "`\n**🖼️ Imágenes afectadas:**\n" ++
  String.intercalate "\n"
    (affected.map fun cs => "- `" ++ cs.image ++ "` (contenedor: " ++ cs.name ++ ")")

/-- Header of the ImagePull analysis block (lines 307-311). -/
def ipAnalysisHeader : String := "## 🤖 Diagnóstico de HolmesGPT\n\n"

/-- Lines 314-318: the affected-container table rows. -/
def ipTableRows (affected : List AffectedContainer) : List (List String) :=
  affected.map fun cs => [cs.name, cs.image, cs.reason, pyTake 50 cs.message]

/-- The whole `analyze_image_pull_backoff_with_holmes` action. -/
def runImagePull (ev : PodEventModel) : RunResult :=
  match ev.pod with
  | none => .noPod
  | some pod =>
    let podName := pod.metadata.name
    let ns := pod.metadata.namespc
    match collectAffected (pod.status.containerStatuses.getD []) with
    | .error e => .crashed e
    | .ok affected =>
      let context := ipContextOf ns podName (dumps 0 (affectedJson affected))
      let analysisText := ipAnalysisTextOf ev.httpResult context
      .finished
        { title := "🔍 ImagePullBackOff - HolmesGPT: " ++ ns ++ "/" ++ podName
          aggKey := mkIpAggKey ns podName
          md1 := ipSummaryMdOf ns podName affected
          md2 := ipAnalysisHeader ++ analysisText
          table := if affected.isEmpty then none else some (ipTableRows affected)
          file := none }

/-- Aggregation key of a finished run. -/
def resultAggKeyOf : RunResult → Option String
  | .finished f => some f.aggKey
  | _ => none

/-- Second (analysis) markdown block of a finished run. -/
def resultMd2Of : RunResult → Option String
  | .finished f => some f.md2
  | _ => none

/-- Table enrichment of a finished run. -/
def resultTableOf : RunResult → Option (List (List String))
  | .finished f => f.table
  | _ => none

/-- The matching-container collection re-expressed declaratively: every
container in a waiting state whose reason matches is kept, in order. -/
def affectedOf (css : List ContainerStatusModel) : List AffectedContainer :=
  css.filterMap fun cs =>
    match cs.state with
    | some st =>
      match st.waiting with
      | some w =>
        match w.reason with
        | some r =>
          if matchesImagePull r then
            some { name := cs.name, image := cs.image,
                   reason := r, message := w.message.getD "" }
          else none
        | none => none
      | none => none
    | none => none

/-- Every waiting container carries a reason (the condition under which
the collection loop at lines 231-239 cannot raise `TypeError`). -/
def noNoneWaitingReason (css : List ContainerStatusModel) : Bool :=
  css.all fun cs =>
    match cs.state with
    | some st =>
      match st.waiting with
      | some w => w.reason.isSome
      | none => true
    | none => true

/-- A pod with empty status sections, used as concrete input. -/
def podW : PodModel :=
  { metadata := { name := "web", namespc := "default" },
    status := { phase := "Pending", conditions := none, containerStatuses := none } }

/-- Invocation where `list_pod_events` raises and the HTTP POST times out. -/
def evC1 : PodEventModel :=
  { pod := some podW,
    logsResult := .ok "short log",
    eventsResult := .error "ApiException: events list failed",
    httpResult := .requestError "HTTPConnectionPool: Read timed out. (read timeout=60)",
    clusterName := some "prod" }

/-- Invocation where only `list_pod_events` raises; logs and HTTP succeed. -/
def evC2 : PodEventModel :=
  { pod := some podW,
    logsResult := .ok "short log",
    eventsResult := .error "ApiException: events list failed",
    httpResult := .success (.obj [("answer", .str "all good")]),
    clusterName := some "prod" }

/-- Two containers both waiting with a matching image-pull reason. -/
def csM1 : ContainerStatusModel :=
  { name := "c1", image := "img1:latest", ready := false, restartCount := 0,
    state := some { waiting := some { reason := some "ImagePullBackOff",
                                      message := some "m1" },
                    terminated := none, running := false } }

def csM2 : ContainerStatusModel :=
  { name := "c2", image := "img2:latest", ready := false, restartCount := 3,
    state := some { waiting := some { reason := some "ErrImagePull",
                                      message := none },
                    terminated := none, running := false } }

def podIP : PodModel :=
  { metadata := { name := "web", namespc := "default" },
    status := { phase := "Pending", conditions := none,
                containerStatuses := some [csM1, csM2] } }

/-- ImagePull invocation with two matching containers and a successful call. -/
def evC5 : PodEventModel :=
  { pod := some podIP,
    logsResult := .ok "",
    eventsResult := .ok [],
    httpResult := .success (.str "ok"),
    clusterName := none }

/-- ImagePull invocation with no matching container. -/
def evC6 : PodEventModel :=
  { pod := some podW,
    logsResult := .ok "",
    eventsResult := .ok [],
    httpResult := .success (.str "ok"),
    clusterName := none }

/-- The finding `analyze_image_pull_backoff_with_holmes` emits on `evC6`. -/
def fC6 : FindingModel :=
  { title := "🔍 ImagePullBackOff - HolmesGPT: default/web"
    aggKey := "HolmesGPT_ImagePull_default_web"
    md1 := "**🚨 Problema:** ImagePullBackOff\n**📦 Pod:** `default/web`\n**🖼️ Imágenes afectadas:**\n"
    md2 := ipAnalysisHeader ++ "ok"
    table := none
    file := none }

/-- Six pod events; one more than the notification table keeps. -/
def evs6 : List EventModel :=
  [{ etype := "Normal", reason := "Scheduled", message := "m1" },
   { etype := "Normal", reason := "Pulling", message := "m2" },
   { etype := "Warning", reason := "Failed", message := "m3" },
   { etype := "Warning", reason := "Failed", message := "m4" },
   { etype := "Normal", reason := "Pulled", message := "m5" },
   { etype := "Warning", reason := "BackOff", message := "m6" }]

/-- The sixth event of `evs6`. -/
def evSix : EventModel := { etype := "Warning", reason := "BackOff", message := "m6" }

/-- A 1001-character analysis string. -/
def ans1001 : String := String.mk (List.replicate 1001 'a')

/-- A 2001-character log string. -/
def s2001 : String := String.mk (List.replicate 2001 'b')

/-- Invocation whose successful response body is 1001 characters long. -/
def evC8 : PodEventModel :=
  { pod := some podW,
    logsResult := .ok "log",
    eventsResult := .ok [],
    httpResult := .success (.obj [("answer", .str ans1001)]),
    clusterName := some "c" }

/-- Response body carrying the usage metadata of the claim. -/
def usageBody : JVal :=
  .obj [("answer", .str "ok"),
        ("usage", .obj [("prompt_tokens", .num 1000), ("completion_tokens", .num 500),
                        ("total_tokens", .num 1500)])]

/-- Invocation whose successful response carries usage metadata. -/
def evC9 : PodEventModel :=
  { pod := some podW,
    logsResult := .ok "log",
    eventsResult := .ok [],
    httpResult := .success usageBody,
    clusterName := some "c" }

/-- A container whose state object is present but carries no variant. -/
def csEmptyState : ContainerStatusModel :=
  { name := "c", image := "i", ready := false, restartCount := 0,
    state := some { waiting := none, terminated := none, running := false } }

/-- A waiting container with a reason and no message. -/
def csWaitingNoMsg : ContainerStatusModel :=
  { name := "c", image := "i", ready := false, restartCount := 1,
    state := some { waiting := some { reason := some "CrashLoopBackOff", message := none },
                    terminated := none, running := false } }

/-- C1: evaluation of `analyze_with_holmesgpt` at an invocation where the
pod is identified, `list_pod_events` raises and the HTTP POST times out.
The claim says a Finding is registered via `event.add_finding` even in
the HTTP-failure case; instead the unbound local `pod_events` is read at
line 192 and the resulting exception escapes before `add_finding` runs,
so no finding is ever registered. -/
theorem c1_events_failure_drops_finding :
    runAnalyze evC1 =
      .crashed "UnboundLocalError: local variable pod_events referenced before assignment" := by
  rfl

/-- C2: evaluation of `analyze_with_holmesgpt` at an invocation where the
pod is identified and only `list_pod_events` raises (logs and the HTTP
call succeed).  The claim says such a failure never lets an exception
escape and the pipeline continues to the finding; instead the except
block binds only `events_text`, the later read of `pod_events` raises
`UnboundLocalError`, and the run crashes without emitting the finding. -/
theorem c2_events_failure_crashes_playbook :
    runAnalyze evC2 =
      .crashed "UnboundLocalError: local variable pod_events referenced before assignment" := by
  rfl

/-- C3 counterexample: on a body carrying both fields the code returns the
`answer` value, not the `analysis` value the claim prefers. -/
theorem c3_counterexample :
    extractAnalysisText (.obj [("analysis", .str "A"), ("answer", .str "B")]) = "B" ∧
    ("B" : String) ≠ "A" := by
  decide

/-- A truthy string under the `answer` key is returned as the analysis
text. -/
theorem extract_answer_truthy (ps : List (String × JVal)) (s : String)
    (h : pyGet ps "answer" = .str s) (hs : s ≠ "") :
    extractAnalysisText (.obj ps) = s := by
  simp only [extractAnalysisText, chooseAnalysis, h]
  have ht : pyTruthy (.str s) = true := by simp [pyTruthy, hs]
  rw [ht]
  simp [pyStr]

/-- C3 amended: the precedence is `answer`, then `analysis`, then the
stringified whole body; a falsy (absent or empty) field is skipped. -/
theorem c3_answer_over_analysis :
    (∀ (ps : List (String × JVal)) (s : String),
      pyGet ps "answer" = .str s → s ≠ "" → extractAnalysisText (.obj ps) = s) ∧
    (∀ (ps : List (String × JVal)) (s : String),
      pyTruthy (pyGet ps "answer") = false →
      pyGet ps "analysis" = .str s → s ≠ "" → extractAnalysisText (.obj ps) = s) ∧
    (∀ ps : List (String × JVal),
      pyTruthy (pyGet ps "answer") = false → pyTruthy (pyGet ps "analysis") = false →
      extractAnalysisText (.obj ps) = pyStr (.obj ps)) := by
  refine ⟨extract_answer_truthy, ?_, ?_⟩
  · intro ps s ha h hs
    simp only [extractAnalysisText, chooseAnalysis, ha, h]
    have : pyTruthy (.str s) = true := by simp [pyTruthy, hs]
    rw [if_neg (by simp [ha]), this]
    simp [pyStr]
  · intro ps ha hb
    simp only [extractAnalysisText, chooseAnalysis]
    rw [if_neg (by simp [ha]), if_neg (by simp [hb])]
    rfl

/-- C3 witness: the three precedence branches at concrete bodies. -/
theorem c3_answer_over_analysis_witness :
    extractAnalysisText (.obj [("answer", .str "B")]) = "B" ∧
    extractAnalysisText (.obj [("answer", .str ""), ("analysis", .str "A")]) = "A" ∧
    extractAnalysisText (.obj [("other", .str "v")]) = pyStr (.obj [("other", .str "v")]) :=
  ⟨c3_answer_over_analysis.1 _ "B" rfl (by decide),
   c3_answer_over_analysis.2.1 _ "A" (by decide) rfl (by decide),
   c3_answer_over_analysis.2.2 _ (by decide) (by decide)⟩

/-- The tail extraction leaves a short-enough string unchanged. -/
theorem logTail_eq_of_le (s : String) (h : s.length ≤ 2000) : logTail s = s := by
  unfold logTail
  rw [if_neg (by omega)]

/-- On a long string the tail extraction keeps exactly the last 2000
characters. -/
theorem logTail_long (s : String) (h : s.length > 2000) :
    (logTail s).length = 2000 ∧ (logTail s).data = s.data.drop (s.length - 2000) := by
  obtain ⟨l⟩ := s
  rw [String.length_mk] at h
  have h2 : (String.mk l).length > 2000 := by rw [String.length_mk]; omega
  have hd : (logTail (String.mk l)).data =
      (String.mk l).data.drop ((String.mk l).length - 2000) := by
    unfold logTail
    rw [if_pos h2]
  refine ⟨?_, hd⟩
  have hl : (logTail (String.mk l)).length = (logTail (String.mk l)).data.length := rfl
  rw [hl, hd, List.length_drop, String.length_mk]
  have hdm : (String.mk l).data = l := rfl
  rw [hdm]
  omega

/-- C4 counterexample: a 1001-character log string is passed through
unchanged (the threshold at line 122 is 2000, not 1000), so its
contribution is not the claimed last 1000 characters. -/
theorem c4_counterexample :
    logTail ans1001 = ans1001 ∧ ans1001.length = 1001 ∧ (logTail ans1001).length ≠ 1000 := by
  have h : ans1001.length = 1001 := by
    simp only [ans1001, String.length_mk, List.length_replicate]
  have h2 : logTail ans1001 = ans1001 := logTail_eq_of_le _ (by omega)
  exact ⟨h2, h, by rw [h2, h]; omega⟩

/-- C4 amended: the tail extraction is idempotent and bounded with cap
2000: a string of length at most 2000 passes unchanged, and a longer
string contributes exactly its last 2000 characters. -/
theorem c4_log_tail_2000 (s : String) :
    (s.length ≤ 2000 → logTail s = s) ∧
    (s.length > 2000 →
      (logTail s).length = 2000 ∧ (logTail s).data = s.data.drop (s.length - 2000)) ∧
    logTail (logTail s) = logTail s := by
  refine ⟨logTail_eq_of_le s, logTail_long s, ?_⟩
  by_cases h : s.length > 2000
  · exact logTail_eq_of_le _ (logTail_long s h).1.le
  · exact congrArg logTail (logTail_eq_of_le s (by omega))

/-- C4 witness: the short-string branch at 42 characters and the long
branch at 2001 characters. -/
theorem c4_log_tail_2000_witness :
    logTail (String.mk (List.replicate 42 'a')) = String.mk (List.replicate 42 'a') ∧
    (logTail s2001).length = 2000 :=
  ⟨(c4_log_tail_2000 _).1
     (by simp only [String.length_mk, List.length_replicate]; omega),
   ((c4_log_tail_2000 s2001).2.1
     (by simp only [s2001, String.length_mk, List.length_replicate]; omega)).1⟩

/-- C5 counterexample: with two containers both waiting on matching
image-pull reasons, the finding's table aggregates both containers, so
the affected-container information is not determined by the first match
alone. -/
theorem c5_counterexample :
    resultTableOf (runImagePull evC5) =
      some [["c1", "img1:latest", "ImagePullBackOff", "m1"],
            ["c2", "img2:latest", "ErrImagePull", ""]] := by
  decide

/-- C5 amended: when every waiting container carries a reason, the
collection loop succeeds and returns exactly the containers whose waiting
reason contains "ImagePullBackOff" or "ErrImagePull", in list order, with
messages defaulting to the empty string — all matches, not just the
first. -/
theorem c5_all_matches_collected (css : List ContainerStatusModel)
    (h : noNoneWaitingReason css = true) :
    collectAffected css = .ok (affectedOf css) := by
  induction css with
  | nil => rfl
  | cons cs rest ih =>
    rw [noNoneWaitingReason, List.all_cons, Bool.and_eq_true] at h
    obtain ⟨h1, h2⟩ := h
    have ih' : collectAffected rest = .ok (affectedOf rest) := ih h2
    cases hst : cs.state with
    | none => simp [collectAffected, affectedOf, List.filterMap_cons, hst, ih']
    | some st =>
      cases hw : st.waiting with
      | none => simp [collectAffected, affectedOf, List.filterMap_cons, hst, hw, ih']
      | some w =>
        simp only [hst, hw] at h1
        obtain ⟨r, hr⟩ := Option.isSome_iff_exists.mp h1
        by_cases hm : matchesImagePull r = true
        · simp [collectAffected, affectedOf, List.filterMap_cons, hst, hw, hr, hm,
            ih', Except.map]
        · simp [collectAffected, affectedOf, List.filterMap_cons, hst, hw, hr, hm, ih']

/-- C5 witness: the collection applied to the two matching containers. -/
theorem c5_all_matches_collected_witness :
    collectAffected [csM1, csM2] = .ok (affectedOf [csM1, csM2]) :=
  c5_all_matches_collected [csM1, csM2] (by decide)

/-- Splitting at an underscore separator is unambiguous when neither left
part contains an underscore. -/
theorem splitUnderscore : ∀ (a c b d : List Char), '_' ∉ a → '_' ∉ c →
    a ++ '_' :: b = c ++ '_' :: d → a = c ∧ b = d := by
  intro a
  induction a with
  | nil =>
    intro c b d _ hc h
    cases c with
    | nil =>
      simp only [List.nil_append, List.cons.injEq] at h
      exact ⟨rfl, h.2⟩
    | cons y cs =>
      simp only [List.nil_append, List.cons_append, List.cons.injEq] at h
      exact absurd (h.1 ▸ List.mem_cons_self y cs) hc
  | cons x as ih =>
    intro c b d ha hc h
    cases c with
    | nil =>
      simp only [List.cons_append, List.nil_append, List.cons.injEq] at h
      exact absurd (h.1 ▸ List.mem_cons_self x as) ha
    | cons y cs =>
      simp only [List.cons_append, List.cons.injEq] at h
      obtain ⟨h1, h2⟩ := h
      have ha' : '_' ∉ as := fun hm => ha (List.mem_cons_of_mem _ hm)
      have hc' : '_' ∉ cs := fun hm => hc (List.mem_cons_of_mem _ hm)
      obtain ⟨hac, hbd⟩ := ih cs b d ha' hc' h2
      exact ⟨by rw [h1, hac], hbd⟩

/-- The character data of an aggregation key. -/
theorem mkAggKey_data (ns n : String) :
    (mkAggKey ns n).data = "HolmesGPT_".data ++ (ns.data ++ '_' :: n.data) := by
  show (("HolmesGPT_" ++ ns ++ "_") ++ n).data = _
  rw [String.data_append, String.data_append, String.data_append]
  rw [List.append_assoc, List.append_assoc]
  rfl

/-- C6 amended: `analyze_with_holmesgpt` keys its finding by
`HolmesGPT_<namespace>_<name>` while `analyze_image_pull_backoff_with_holmes`
keys its finding by `HolmesGPT_ImagePull_<namespace>_<name>`; each key is a
pure function of the (namespace, name) pair, and within the first action two
pods with underscore-free namespaces get different keys exactly when their
(namespace, name) pairs differ. -/
theorem c6_per_action_agg_keys :
    (∀ (pod : PodModel) (lr : Except String String) (evs : List EventModel)
       (http : HttpOutcome) (cl : Option String),
      resultAggKeyOf (runAnalyze { pod := some pod,
                                   logsResult := lr,
                                   eventsResult := Except.ok evs,
                                   httpResult := http,
                                   clusterName := cl }) =
        some (mkAggKey pod.metadata.namespc pod.metadata.name)) ∧
    (∀ (pod : PodModel) (lr : Except String String)
       (er : Except String (List EventModel)) (http : HttpOutcome)
       (cl : Option String) (f : FindingModel),
      runImagePull { pod := some pod,
                     logsResult := lr,
                     eventsResult := er,
                     httpResult := http,
                     clusterName := cl } = .finished f →
      f.aggKey = mkIpAggKey pod.metadata.namespc pod.metadata.name) ∧
    (∀ ns1 n1 ns2 n2 : String, '_' ∉ ns1.data → '_' ∉ ns2.data →
      mkAggKey ns1 n1 = mkAggKey ns2 n2 → ns1 = ns2 ∧ n1 = n2) := by
  refine ⟨fun pod lr evs http cl => rfl, ?_, ?_⟩
  · intro pod lr er http cl f hr
    simp only [runImagePull] at hr
    split at hr
    · exact absurd hr (by simp)
    · injection hr with h
      rw [← h]
  · intro ns1 n1 ns2 n2 h1 h2 heq
    have hd := congrArg String.data heq
    rw [mkAggKey_data, mkAggKey_data] at hd
    obtain ⟨hns, hn⟩ :=
      splitUnderscore ns1.data ns2.data n1.data n2.data h1 h2
        (List.append_cancel_left hd)
    exact ⟨String.ext hns, String.ext hn⟩

/-- C6 counterexample: the ImagePull action's key has the extra
`ImagePull` segment, so it is not `HolmesGPT_<namespace>_<name>`; and with
underscores inside the namespace, two different pods share a key. -/
theorem c6_counterexample :
    resultAggKeyOf (runImagePull evC6) = some "HolmesGPT_ImagePull_default_web" ∧
    "HolmesGPT_ImagePull_default_web" ≠ mkAggKey "default" "web" ∧
    mkAggKey "a_b" "c" = mkAggKey "a" "b_c" ∧ ¬("a_b" = "a" ∧ "c" = "b_c") := by
  refine ⟨by decide, by decide, by decide, by decide⟩

/-- C6 witness: both key shapes and the injectivity at concrete pods. -/
theorem c6_per_action_agg_keys_witness :
    resultAggKeyOf (runAnalyze { pod := some podW,
                                 logsResult := Except.ok "x",
                                 eventsResult := Except.ok [],
                                 httpResult := HttpOutcome.success (JVal.str "ok"),
                                 clusterName := some "c" }) =
      some (mkAggKey "default" "web") ∧
    fC6.aggKey = mkIpAggKey "default" "web" ∧
    ("default" = "default" ∧ "web" = "web") :=
  ⟨c6_per_action_agg_keys.1 podW (Except.ok "x") [] (HttpOutcome.success (JVal.str "ok"))
     (some "c"),
   c6_per_action_agg_keys.2.1 podW (Except.ok "") (Except.ok [])
     (HttpOutcome.success (JVal.str "ok")) none fC6 (by decide),
   c6_per_action_agg_keys.2.2 "default" "web" "default" "web"
     (by decide) (by decide) rfl⟩

/-- The context determines and is determined by its events-text segment:
equal contexts with equal remaining fields force equal events texts. -/
theorem contextOf_events_inj (ns n ph d et et' lg : String)
    (h : contextOf ns n ph d et lg = contextOf ns n ph d et' lg) : et = et' := by
  have hd := congrArg String.data h
  simp only [contextOf, String.data_append, List.append_assoc] at hd
  iterate 9 replace hd := List.append_cancel_left hd
  exact String.ext (List.append_cancel_right hd)

/-- C7 counterexample: with six pod events, the context POSTed to the
diagnostic service embeds `events_text`, which is built from the whole
event list: it contains the line of the sixth event, and the context
differs from the one built from only the first five events.  Only the
notification table is capped at 5. -/
theorem c7_counterexample :
    contextOf "default" "web" "Pending" (dumps 0 (buildPodStatus podW))
        (eventsTextOf (Except.ok evs6)) "log" ≠
      contextOf "default" "web" "Pending" (dumps 0 (buildPodStatus podW))
        (eventsTextOf (Except.ok (evs6.take 5))) "log" ∧
    strIn (eventLine evSix) (eventsTextOf (Except.ok evs6)) = true ∧
    evs6.length = 6 ∧ (eventsTableRows evs6).length = 5 := by
  refine ⟨fun h => ?_, by decide, by decide, by decide⟩
  have := contextOf_events_inj _ _ _ _ _ _ _ h
  exact absurd this (by decide)

/-- C7 amended: only the notification's events table is capped at the
first 5 entries (reduced to type, reason, message truncated to 100
characters); the context string gets one line per event of the whole
list, and a listing failure degrades the context field to a placeholder
string, not an empty sequence. -/
theorem c7_events_cap_table_only (evs : List EventModel) (m : String) :
    eventsTableRows evs =
      (evs.take 5).map (fun e => [e.etype, e.reason, pyTake 100 e.message]) ∧
    (eventsTableRows evs).length = min 5 evs.length ∧
    (evs.map eventLine).length = evs.length ∧
    eventsTextOf (Except.error m) = "No hay eventos disponibles" := by
  refine ⟨rfl, ?_, List.length_map .., rfl⟩
  rw [eventsTableRows, List.length_map, List.length_take]

set_option maxRecDepth 100000 in
/-- C8 counterexample: a 1001-character analysis string is embedded into
the notification's markdown block in full; were it truncated to 1000
characters plus a 3-character ellipsis, the embedded part would have
length 1003, not 1001. -/
theorem c8_counterexample :
    resultMd2Of (runAnalyze evC8) = some (analysisHeader ++ ans1001) ∧
    (analysisHeader ++ ans1001).length = analysisHeader.length + 1001 ∧
    analysisHeader.length + 1001 ≠ analysisHeader.length + 1003 := by
  refine ⟨by decide, ?_, by omega⟩
  rw [String.length_append]
  simp only [ans1001, String.length_mk, List.length_replicate]

/-- C8 amended: no length cap is applied anywhere: for every run of
`analyze_with_holmesgpt` that reaches the finding, the analysis markdown
block is exactly the fixed header followed by the full analysis text,
whatever its length. -/
theorem c8_analysis_embedded_verbatim (pod : PodModel) (lr : Except String String)
    (evs : List EventModel) (http : HttpOutcome) (cl : Option String) :
    resultMd2Of (runAnalyze { pod := some pod,
                              logsResult := lr,
                              eventsResult := Except.ok evs,
                              httpResult := http,
                              clusterName := cl }) =
      some (analysisHeader ++
        analysisTextOf http
          (contextOf pod.metadata.namespc pod.metadata.name pod.status.phase
            (dumps 0 (buildPodStatus pod)) (eventsTextOf (Except.ok evs))
            (podLogsOf lr))) := rfl

/-- C9 counterexample: a response carrying the claim's usage metadata
produces a notification block with no cost line at all — the block equals
the header plus the `answer` text and contains no dollar sign, in
particular not `$0.0600`. -/
theorem c9_counterexample :
    resultMd2Of (runAnalyze evC9) = some (analysisHeader ++ "ok") ∧
    strIn "$0.0600" (analysisHeader ++ "ok") = false ∧
    strIn "$" (analysisHeader ++ "ok") = false := by
  refine ⟨by decide, by decide, by decide⟩

/-- C9 amended: usage metadata is ignored: the extraction reads only the
`answer`/`analysis` fields, so adding a `usage` entry to a body with a
truthy `answer` leaves the analysis text unchanged, and no cost line is
appended. -/
theorem c9_usage_ignored (ps : List (String × JVal)) (u : JVal) (s : String)
    (h : pyGet ps "answer" = .str s) (hs : s ≠ "") :
    extractAnalysisText (.obj (ps ++ [("usage", u)])) = s ∧
    extractAnalysisText (.obj ps) = s := by
  have hfind : ∃ p, ps.find? (fun p => p.1 == "answer") = some p ∧ p.2 = .str s := by
    rw [pyGet] at h
    cases hf : ps.find? (fun p => p.1 == "answer") with
    | none => rw [hf] at h; exact absurd h (by simp)
    | some p => rw [hf] at h; exact ⟨p, rfl, h⟩
  obtain ⟨p, hf, hp⟩ := hfind
  have hga : pyGet (ps ++ [("usage", u)]) "answer" = .str s := by
    rw [pyGet, List.find?_append, hf]
    simpa using hp
  exact ⟨extract_answer_truthy _ s hga hs, extract_answer_truthy ps s h hs⟩

/-- C9 witness: a usage entry appended to a body with answer "hi". -/
theorem c9_usage_ignored_witness :
    extractAnalysisText (.obj ([("answer", JVal.str "hi")] ++ [("usage", JVal.num 5)])) = "hi" ∧
    extractAnalysisText (.obj [("answer", JVal.str "hi")]) = "hi" :=
  c9_usage_ignored [("answer", JVal.str "hi")] (JVal.num 5) "hi" rfl (by decide)

/-- C10 counterexample: a container whose state object is present but
carries no waiting/terminated/running variant gets no state entry at all,
so it is not the case that exactly one variant is always recorded. -/
theorem c10_counterexample :
    stateInfoOf csEmptyState = none ∧ csEmptyState.state.isSome = true := by
  decide

/-- C10 amended: at most one tagged state variant is recorded, chosen with
priority waiting over terminated over running (and none at all when the
state carries no variant); waiting/terminated messages default to the
empty string. -/
theorem c10_at_most_one_state (cs : ContainerStatusModel) (st : ContState)
    (h : cs.state = some st) :
    (∀ w, st.waiting = some w →
      stateInfoOf cs = some (.waiting w.reason (w.message.getD ""))) ∧
    (st.waiting = none → ∀ t, st.terminated = some t →
      stateInfoOf cs = some (.terminated t.reason t.exitCode (t.message.getD ""))) ∧
    (st.waiting = none → st.terminated = none →
      stateInfoOf cs = if st.running then some .running else none) := by
  refine ⟨?_, ?_, ?_⟩
  · intro w hw
    simp [stateInfoOf, h, hw]
  · intro hw t ht
    simp [stateInfoOf, h, hw, ht]
  · intro hw ht
    simp [stateInfoOf, h, hw, ht]

/-- C10 witness: a waiting container with an absent message records the
waiting variant with message defaulted to the empty string. -/
theorem c10_at_most_one_state_witness :
    stateInfoOf csWaitingNoMsg = some (.waiting (some "CrashLoopBackOff") "") :=
  (c10_at_most_one_state csWaitingNoMsg
    { waiting := some { reason := some "CrashLoopBackOff", message := none },
      terminated := none, running := false } rfl).1
    { reason := some "CrashLoopBackOff", message := none } rfl

end HolmesGPT
